import Mathlib

/-!
Shallow embedding of the api-football-mcp servers.

The repository contains three near-duplicate server variants:
  * `V1`: the plain-Express server at the top of `src/index.js`
    (an `app.all('/mcp')` handler with a JSON-RPC envelope);
  * `V2`: the MCP-SDK server in the second half of `src/index.js`
    (`ApiFootballMCPServer`, four tools, catch converts errors to text);
  * `V3`: the plain-Express server in `src/unnamed/part_000`
    (separate GET and POST routes, no JSON-RPC envelope fields).

JavaScript values are modelled by the inductive type `Js`; property access
that can throw a `TypeError` (reading a property of `null`/`undefined`) is
modelled by `Js.get` returning `Except String Js`, and optional chaining
(`a?.b`) by the total `Js.optGet`.  The upstream API (axios GET) is a
parameter of type `Upstream`; its `Except.error` case models a thrown
transport error.  `JSON.stringify(., null, 2)` is modelled by `stringify`
up to insignificant whitespace (the pretty-printing indentation is
abstracted away; field order, field dropping for `undefined`, and string
quoting are kept).
-/

/-- A JavaScript/JSON value.  `undef` is JavaScript `undefined`, distinct
from JSON `null`; numbers are modelled as integers (no claim involves
non-integral arithmetic). -/
inductive Js where
  | undef : Js
  | null : Js
  | bool (b : Bool) : Js
  | num (n : Int) : Js
  | str (s : String) : Js
  | arr (xs : List Js) : Js
  | obj (fs : List (String × Js)) : Js

/-- Test for `undefined`. -/
def Js.isUndef : Js → Bool
  | .undef => true
  | _ => false

/-- Strict equality `v === "lit"` against a string literal: true exactly
when `v` is that string. -/
def Js.eqStr : Js → String → Bool
  | .str s, t => s == t
  | _, _ => false

/-- Property access, `v.k` in JavaScript: throws a TypeError when the
receiver is `null` or `undefined`, yields `undefined` for a missing key or
a primitive receiver. -/
def Js.get : Js → String → Except String Js
  | .undef, k => .error ("TypeError: Cannot read properties of undefined (reading " ++ k ++ ")")
  | .null, k => .error ("TypeError: Cannot read properties of null (reading " ++ k ++ ")")
  | .obj fs, k => .ok ((fs.lookup k).getD .undef)
  | _, _ => .ok (.undef)

/-- Optional chaining, `v?.k` in JavaScript: total; `null`/`undefined`
receivers short-circuit to `undefined`, primitives have no properties. -/
def Js.optGet : Js → String → Js
  | .undef, _ => .undef
  | .null, _ => .undef
  | .obj fs, k => (fs.lookup k).getD .undef
  | _, _ => (.undef)

/-- JavaScript truthiness (as used by `x || y` and `if (x)`). -/
def Js.truthy : Js → Bool
  | .undef => false
  | .null => false
  | .bool b => b
  | .num n => n != 0
  | .str s => s != ""
  | .arr _ => true
  | .obj _ => true

/-- Calling `.slice(...).map(...)` on a value: only arrays support it,
anything else throws a TypeError. -/
def Js.asArray : Js → Except String (List Js)
  | .arr xs => .ok xs
  | _ => .error "TypeError: value.slice is not a function"

/-- String conversion as performed by a template literal. -/
def Js.display : Js → String
  | .undef => "undefined"
  | .null => "null"
  | .bool b => if b then "true" else "false"
  | .num n => toString n
  | .str s => s
  | .arr _ => ""
  | .obj _ => "[object Object]"

/-- Escape a character for a JSON string literal. -/
def escapeChar (c : Char) : String :=
  if c = '"' then "\\\"" else if c = '\\' then "\\\\" else String.singleton c

/-- Escape a string for a JSON string literal. -/
def escapeString (s : String) : String :=
  String.join (s.data.map escapeChar)

/-- Quote a string as a JSON string literal. -/
def jsonQuote (s : String) : String := "\"" ++ escapeString s ++ "\""

mutual
/-- `JSON.stringify`, up to whitespace: fields whose value is `undefined`
are dropped from objects; `undefined` array elements serialize as `null`. -/
def stringify : Js → String
  | .undef => "null"
  | .null => "null"
  | .bool b => if b then "true" else "false"
  | .num n => toString n
  | .str s => jsonQuote s
  | .arr xs => "[" ++ stringifyElems xs ++ "]"
  | .obj fs => "\x7b" ++ stringifyFields fs ++ "\x7d"

/-- Serialize array elements, comma separated. -/
def stringifyElems : List Js → String
  | [] => ""
  | [x] => stringify x
  | x :: y :: rest => stringify x ++ "," ++ stringifyElems (y :: rest)

/-- Serialize object fields, comma separated, dropping `undefined` values. -/
def stringifyFields : List (String × Js) → String
  | [] => ""
  | (k, v) :: rest =>
      if v.isUndef then stringifyFields rest
      else
        let item := jsonQuote k ++ ":" ++ stringify v
        let tail := stringifyFields rest
        if tail = "" then item else item ++ "," ++ tail
end

/-- Sequential fallible map, modelling `array.map(f)` where `f` may throw:
the first thrown error propagates. -/
def mapE (f : Js → Except String Js) : List Js → Except String (List Js)
  | [] => .ok []
  | a :: l => do
      let b ← f a
      let bs ← mapE f l
      pure (b :: bs)

/-- The upstream API: an endpoint path and query parameters yield either
`response.data` (the parsed JSON body) or a thrown transport error. -/
def Upstream : Type := String → List (String × Js) → Except String Js

/-- An HTTP response as produced by `res.status(...).json(...)` /
`res.json(...)` (status 200). -/
structure HttpResponse where
  status : Nat
  body : Js

/-- The `{content: [{type: 'text', text: JSON.stringify(payload, null, 2)}]}`
object every tool builds around its payload. -/
def contentResult (payload : Js) : Js :=
  .obj [("content", .arr [.obj [("type", .str "text"), ("text", .str (stringify payload))]])]

namespace V1

/-!
The plain-Express variant at the top of `src/index.js`: a single
`app.all('/mcp')` handler.  `mcpHandler` is the whole route handler,
`tryHandler` its `try` block, with the `catch` block forming the
`.error` branch of `mcpHandler`.
-/

/-- Tool descriptors of `src/index.js`; the GET branch (lines 29-52) and
the `tools/list` branch (lines 65-88) contain two byte-identical copies of
this literal. -/
def toolsJson : Js :=
  .arr [
    .obj [("name", .str "get_upcoming_fixtures"),
          ("description", .str "Get upcoming football fixtures for betting analysis"),
          ("inputSchema", .obj [("type", .str "object"),
            ("properties", .obj [
              ("league", .obj [("type", .str "string"),
                ("description", .str "League ID (e.g., 39 for Premier League)")]),
              ("date", .obj [("type", .str "string"),
                ("description", .str "Date in YYYY-MM-DD format")])])])],
    .obj [("name", .str "search_teams"),
          ("description", .str "Search for teams by name"),
          ("inputSchema", .obj [("type", .str "object"),
            ("properties", .obj [
              ("name", .obj [("type", .str "string"),
                ("description", .str "Team name to search for")])]),
            ("required", .arr [.str "name"])])]]

/-- Per-entry mapping of the `search_teams` branch (lines 110-114):
`item => (\x7bid: item.team.id, name: item.team.name, country: item.team.country\x7d)`. -/
def mapTeamItem (item : Js) : Except String Js := do
  let team ← item.get "team"
  let tid ← team.get "id"
  let tname ← team.get "name"
  let tcountry ← team.get "country"
  pure (.obj [("id", tid), ("name", tname), ("country", tcountry)])

/-- Payload serialized by the `search_teams` branch (lines 108-115):
message plus `response.data.response.slice(0, 5).map(...)`. -/
def searchTeamsPayload (argName : Js) (data : Js) : Except String Js := do
  let resp ← (← data.get "response").asArray
  let teams ← mapE mapTeamItem (resp.take 5)
  pure (.obj [("message", .str ("Teams found matching \"" ++ argName.display ++ "\"")),
              ("teams", .arr teams)])

/-- Per-entry mapping of the `get_upcoming_fixtures` branch (lines 138-143):
id, date, `home vs away` string, league name; no fallback for any missing
nested field. -/
def mapFixture (fixture : Js) : Except String Js := do
  let f ← fixture.get "fixture"
  let fid ← f.get "id"
  let fdate ← f.get "date"
  let home ← (← (← fixture.get "teams").get "home").get "name"
  let away ← (← (← fixture.get "teams").get "away").get "name"
  let league ← (← fixture.get "league").get "name"
  pure (.obj [("id", fid), ("date", fdate),
              ("teams", .str (home.display ++ " vs " ++ away.display)),
              ("league", league)])

/-- Payload serialized by the `get_upcoming_fixtures` branch (lines
136-144): message with `response.data.results`, then
`response.data.response.slice(0, 5).map(...)`. -/
def fixturesPayload (data : Js) : Except String Js := do
  let results ← data.get "results"
  let resp ← (← data.get "response").asArray
  let fixtures ← mapE mapFixture (resp.take 5)
  pure (.obj [("message", .str ("Found " ++ results.display ++ " upcoming fixtures")),
              ("fixtures", .arr fixtures)])

/-- Query parameters of the `get_upcoming_fixtures` axios call (lines
124-127): `league: args.league || '39', next: '10'`. -/
def fixturesQuery (lg : Js) : List (String × Js) :=
  [("league", if lg.truthy then lg else .str "39"), ("next", .str "10")]

/-- Success envelope `\x7bjsonrpc: "2.0", id, result\x7d`. -/
def envelope (id : Js) (result : Js) : Js :=
  .obj [("jsonrpc", .str "2.0"), ("id", id), ("result", result)]

/-- The fall-through branch (lines 151-155): status 400 with a
`-32601 Method not found` JSON-RPC error. -/
def notFoundResponse (id : Js) : HttpResponse :=
  ⟨400, .obj [("jsonrpc", .str "2.0"), ("id", id),
              ("error", .obj [("code", .num (-32601)), ("message", .str "Method not found")])]⟩

/-- The GET branch (lines 25-55): tools list without an `id` field. -/
def getResponse : HttpResponse :=
  ⟨200, .obj [("jsonrpc", .str "2.0"), ("result", .obj [("tools", toolsJson)])]⟩

/-- The `try` block of the `/mcp` handler (lines 23-155).  The request
body is destructured into `jsonrpc`, `method`, `params`, `id` (throwing
only when the body is `null`/`undefined`); `jsonrpc` is bound but never
inspected.  Dispatch is on `method`, then on `params.name`. -/
def tryHandler (httpMethod : String) (reqBody : Js) (up : Upstream) :
    Except String HttpResponse := do
  if httpMethod == "GET" then
    pure getResponse
  else
    let _jsonrpc ← reqBody.get "jsonrpc"
    let method ← reqBody.get "method"
    let params ← reqBody.get "params"
    let id ← reqBody.get "id"
    if method.eqStr "tools/list" then
      pure ⟨200, envelope id (.obj [("tools", toolsJson)])⟩
    else if method.eqStr "tools/call" then
      let name ← params.get "name"
      let args ← params.get "arguments"
      if name.eqStr "search_teams" then
        let nm ← args.get "name"
        let data ← up "/teams" [("search", nm)]
        let payload ← searchTeamsPayload nm data
        pure ⟨200, envelope id (contentResult payload)⟩
      else if name.eqStr "get_upcoming_fixtures" then
        let lg ← args.get "league"
        let data ← up "/fixtures" (fixturesQuery lg)
        let payload ← fixturesPayload data
        pure ⟨200, envelope id (contentResult payload)⟩
      else
        pure (notFoundResponse id)
    else
      pure (notFoundResponse id)

/-- The complete `/mcp` route handler: the `catch` block (lines 156-162)
turns any thrown error into a 500 envelope whose `id` is `req.body?.id`
(optional chaining). -/
def mcpHandler (httpMethod : String) (reqBody : Js) (up : Upstream) : HttpResponse :=
  match tryHandler httpMethod reqBody up with
  | .ok r => r
  | .error e =>
      ⟨500, .obj [("jsonrpc", .str "2.0"), ("id", reqBody.optGet "id"),
                  ("error", .obj [("code", .num (-32603)), ("message", .str e)])]⟩

end V1

namespace V2

/-!
The MCP-SDK variant in the second half of `src/index.js`
(`ApiFootballMCPServer`).  Each private tool method becomes a function
from the tool arguments and the upstream to an `Except`; the
`CallToolRequestSchema` handler (lines 310-336) is `callToolHandler`,
whose `catch` converts every thrown error into a `content` result.
-/

/-- The `makeApiRequest` wrapper (lines 210-222): re-throws any axios
error with an `API request failed:` prefix. -/
def makeApiRequest (up : Upstream) (endpoint : String) (params : List (String × Js)) :
    Except String Js :=
  match up endpoint params with
  | .ok d => .ok d
  | .error e => .error ("API request failed: " ++ e)

/-- Query construction of `getUpcomingFixtures` (lines 340-344): each of
`league`, `date`, `timezone` is added only when truthy; no default league. -/
def fixturesParams (args : Js) : Except String (List (String × Js)) := do
  let lg ← args.get "league"
  let dt ← args.get "date"
  let tz ← args.get "timezone"
  pure ((if lg.truthy then [("league", lg)] else []) ++
        (if dt.truthy then [("date", dt)] else []) ++
        (if tz.truthy then [("timezone", tz)] else []))

/-- Per-entry mapping of `getUpcomingFixtures` (lines 354-361): note
`fixture.fixture.venue?.name` is the only optional-chained access. -/
def mapFixture (fixture : Js) : Except String Js := do
  let f ← fixture.get "fixture"
  let fid ← f.get "id"
  let fdate ← f.get "date"
  let status ← (← f.get "status").get "long"
  let league ← (← fixture.get "league").get "name"
  let home ← (← (← fixture.get "teams").get "home").get "name"
  let away ← (← (← fixture.get "teams").get "away").get "name"
  let venue ← f.get "venue"
  pure (.obj [("id", fid), ("date", fdate), ("status", status), ("league", league),
              ("teams", .str (home.display ++ " vs " ++ away.display)),
              ("venue", venue.optGet "name")])

/-- Payload serialized by `getUpcomingFixtures` (lines 352-362):
`data.response.slice(0, 10).map(...)` with the `Found N` message. -/
def fixturesPayload (data : Js) : Except String Js := do
  let results ← data.get "results"
  let resp ← (← data.get "response").asArray
  let fixtures ← mapE mapFixture (resp.take 10)
  pure (.obj [("message", .str ("Found " ++ results.display ++ " upcoming fixtures")),
              ("fixtures", .arr fixtures)])

/-- `getUpcomingFixtures` (lines 339-366): `slice(0, 10)`. -/
def getUpcomingFixtures (args : Js) (up : Upstream) : Except String Js := do
  let params ← fixturesParams args
  let data ← makeApiRequest up "/fixtures" params
  let payload ← fixturesPayload data
  pure (contentResult payload)

/-- Payload serialized by `getTeamForm` (lines 382-385): passes
`data.response` through whole, no slicing and no per-entry mapping. -/
def teamFormPayload (data : Js) : Except String Js := do
  let resp ← data.get "response"
  pure (.obj [("message", .str "Team statistics for analysis"),
              ("statistics", resp)])

/-- `getTeamForm` (lines 368-389). -/
def getTeamForm (args : Js) (up : Upstream) : Except String Js := do
  let team ← args.get "team"
  let league ← args.get "league"
  let season ← args.get "season"
  let params := [("team", team), ("league", league)] ++
                (if season.truthy then [("season", season)] else [])
  let data ← makeApiRequest up "/teams/statistics" params
  let payload ← teamFormPayload data
  pure (contentResult payload)

/-- Inner bookmaker mapping of `getOdds` (lines 409-412):
`bookmaker.bets?.slice(0, 3)`. -/
def mapBookmaker (bm : Js) : Except String Js := do
  let nm ← bm.get "name"
  let bets ← bm.get "bets"
  let betsV ← match bets with
    | .null => pure Js.undef
    | .undef => pure Js.undef
    | v => do
        let xs ← v.asArray
        pure (Js.arr (xs.take 3))
  pure (.obj [("name", nm), ("bets", betsV)])

/-- Per-entry mapping of `getOdds` (lines 406-413):
`odd.bookmakers?.slice(0, 3).map(...)`. -/
def mapOdd (odd : Js) : Except String Js := do
  let fx ← odd.get "fixture"
  let home ← (← (← fx.get "teams").get "home").get "name"
  let away ← (← (← fx.get "teams").get "away").get "name"
  let fdate ← fx.get "date"
  let bms ← odd.get "bookmakers"
  let bmsV ← match bms with
    | .null => pure Js.undef
    | .undef => pure Js.undef
    | v => do
        let xs ← v.asArray
        let mapped ← mapE mapBookmaker (xs.take 3)
        pure (Js.arr mapped)
  pure (.obj [("fixture", .str (home.display ++ " vs " ++ away.display)),
              ("date", fdate), ("bookmakers", bmsV)])

/-- Payload serialized by `getOdds` (lines 404-414): `slice(0, 5)`. -/
def oddsPayload (data : Js) : Except String Js := do
  let resp ← (← data.get "response").asArray
  let odds ← mapE mapOdd (resp.take 5)
  pure (.obj [("message", .str "Betting odds found"), ("odds", .arr odds)])

/-- `getOdds` (lines 391-418): truthy-conditional params, `slice(0, 5)`. -/
def getOdds (args : Js) (up : Upstream) : Except String Js := do
  let fx ← args.get "fixture"
  let lg ← args.get "league"
  let bm ← args.get "bookmaker"
  let params := (if fx.truthy then [("fixture", fx)] else []) ++
                (if lg.truthy then [("league", lg)] else []) ++
                (if bm.truthy then [("bookmaker", bm)] else [])
  let data ← makeApiRequest up "/odds" params
  let payload ← oddsPayload data
  pure (contentResult payload)

/-- Per-entry mapping of `searchTeams` (lines 433-438): id, name,
country, founded. -/
def mapTeamItem (item : Js) : Except String Js := do
  let team ← item.get "team"
  let tid ← team.get "id"
  let tname ← team.get "name"
  let tcountry ← team.get "country"
  let tfounded ← team.get "founded"
  pure (.obj [("id", tid), ("name", tname), ("country", tcountry), ("founded", tfounded)])

/-- Payload serialized by `searchTeams` (lines 430-439): `slice(0, 10)`. -/
def searchTeamsPayload (nm : Js) (data : Js) : Except String Js := do
  let resp ← (← data.get "response").asArray
  let teams ← mapE mapTeamItem (resp.take 10)
  pure (.obj [("message", .str ("Teams found matching \"" ++ nm.display ++ "\"")),
              ("teams", .arr teams)])

/-- `searchTeams` (lines 420-443): `slice(0, 10)`. -/
def searchTeams (args : Js) (up : Upstream) : Except String Js := do
  let nm ← args.get "name"
  let data ← makeApiRequest up "/teams" [("search", nm)]
  let payload ← searchTeamsPayload nm data
  pure (contentResult payload)

/-- The `switch` of the `CallToolRequestSchema` handler (lines 314-325);
an unknown tool name throws `Unknown tool: <name>`. -/
def callToolInner (name : String) (args : Js) (up : Upstream) : Except String Js :=
  match name with
  | "get_upcoming_fixtures" => getUpcomingFixtures args up
  | "get_team_form" => getTeamForm args up
  | "get_odds" => getOdds args up
  | "search_teams" => searchTeams args up
  | _ => .error ("Unknown tool: " ++ name)

/-- The full `CallToolRequestSchema` handler (lines 310-336): its `catch`
returns a plain `content` result carrying `Error: <message>` as text — a
success-shaped value, not a JSON-RPC error envelope. -/
def callToolHandler (name : String) (args : Js) (up : Upstream) : Js :=
  match callToolInner name args up with
  | .ok r => r
  | .error e =>
      .obj [("content", .arr [.obj [("type", .str "text"), ("text", .str ("Error: " ++ e))]])]

end V2

namespace V3

/-!
The plain-Express variant in `src/unnamed/part_000`: separate
`app.get('/mcp')` and `app.post('/mcp')` routes, responses without
JSON-RPC envelope fields (no `jsonrpc`, no `id`).
-/

/-- Tool descriptors served by `GET /mcp` (part_000 lines 27-54),
complete with `inputSchema`. -/
def getToolsJson : Js :=
  .arr [
    .obj [("name", .str "get_upcoming_fixtures"),
          ("description", .str "Get upcoming football fixtures for betting analysis"),
          ("inputSchema", .obj [("type", .str "object"),
            ("properties", .obj [
              ("league", .obj [("type", .str "string"),
                ("description", .str "League ID (e.g., 39 for Premier League)")]),
              ("date", .obj [("type", .str "string"),
                ("description", .str "Date in YYYY-MM-DD format")])])])],
    .obj [("name", .str "search_teams"),
          ("description", .str "Search for teams by name"),
          ("inputSchema", .obj [("type", .str "object"),
            ("properties", .obj [
              ("name", .obj [("type", .str "string"),
                ("description", .str "Team name to search for")])]),
            ("required", .arr [.str "name"])])]]

/-- Tool descriptors returned by the POST `tools/list` branch (part_000
lines 61-74): names and descriptions only, no `inputSchema`. -/
def postListToolsJson : Js :=
  .arr [
    .obj [("name", .str "get_upcoming_fixtures"),
          ("description", .str "Get upcoming football fixtures for betting analysis")],
    .obj [("name", .str "search_teams"),
          ("description", .str "Search for teams by name")]]

/-- The `GET /mcp` route (part_000 lines 27-54). -/
def getMcpResponse : HttpResponse := ⟨200, .obj [("tools", getToolsJson)]⟩

/-- Per-entry mapping of `search_teams` (part_000 lines 90-94). -/
def mapTeamItem (item : Js) : Except String Js := do
  let team ← item.get "team"
  let tid ← team.get "id"
  let tname ← team.get "name"
  let tcountry ← team.get "country"
  pure (.obj [("id", tid), ("name", tname), ("country", tcountry)])

/-- Payload of `search_teams` (part_000 lines 88-95): `slice(0, 5)`. -/
def searchTeamsPayload (argName : Js) (data : Js) : Except String Js := do
  let resp ← (← data.get "response").asArray
  let teams ← mapE mapTeamItem (resp.take 5)
  pure (.obj [("message", .str ("Teams found matching \"" ++ argName.display ++ "\"")),
              ("teams", .arr teams)])

/-- Per-entry mapping of `get_upcoming_fixtures` (part_000 lines 114-119). -/
def mapFixture (fixture : Js) : Except String Js := do
  let f ← fixture.get "fixture"
  let fid ← f.get "id"
  let fdate ← f.get "date"
  let home ← (← (← fixture.get "teams").get "home").get "name"
  let away ← (← (← fixture.get "teams").get "away").get "name"
  let league ← (← fixture.get "league").get "name"
  pure (.obj [("id", fid), ("date", fdate),
              ("teams", .str (home.display ++ " vs " ++ away.display)),
              ("league", league)])

/-- Payload of `get_upcoming_fixtures` (part_000 lines 112-120):
`slice(0, 5)`. -/
def fixturesPayload (data : Js) : Except String Js := do
  let results ← data.get "results"
  let resp ← (← data.get "response").asArray
  let fixtures ← mapE mapFixture (resp.take 5)
  pure (.obj [("message", .str ("Found " ++ results.display ++ " upcoming fixtures")),
              ("fixtures", .arr fixtures)])

/-- Query parameters of the `get_upcoming_fixtures` axios call (part_000
lines 103-106): `league: args.league || '39', next: '10'`. -/
def fixturesQuery (lg : Js) : List (String × Js) :=
  [("league", if lg.truthy then lg else .str "39"), ("next", .str "10")]

/-- The `try` block of `POST /mcp` (part_000 lines 57-126): destructures
`method` and `params` only; no `jsonrpc` check, no `id` echo; the
fall-through is a 400 `Unknown method or tool`. -/
def tryPostHandler (reqBody : Js) (up : Upstream) : Except String HttpResponse := do
  let method ← reqBody.get "method"
  let params ← reqBody.get "params"
  if method.eqStr "tools/list" then
    pure ⟨200, .obj [("tools", postListToolsJson)]⟩
  else if method.eqStr "tools/call" then
    let name ← params.get "name"
    let args ← params.get "arguments"
    if name.eqStr "search_teams" then
      let nm ← args.get "name"
      let data ← up "/teams" [("search", nm)]
      let payload ← searchTeamsPayload nm data
      pure ⟨200, contentResult payload⟩
    else if name.eqStr "get_upcoming_fixtures" then
      let lg ← args.get "league"
      let data ← up "/fixtures" (fixturesQuery lg)
      let payload ← fixturesPayload data
      pure ⟨200, contentResult payload⟩
    else
      pure ⟨400, .obj [("error", .str "Unknown method or tool")]⟩
  else
    pure ⟨400, .obj [("error", .str "Unknown method or tool")]⟩

/-- The full `POST /mcp` route (part_000 lines 57-130): the `catch`
returns a 500 with the raw error message. -/
def postHandler (reqBody : Js) (up : Upstream) : HttpResponse :=
  match tryPostHandler reqBody up with
  | .ok r => r
  | .error e => ⟨500, .obj [("error", .str e)]⟩

end V3

/-! Helpers used only in theorem statements. -/

/-- A well-formed JSON-RPC request body, with the four fields the V1
handler destructures. -/
def mkPostBody (jrpc method params id : Js) : Js :=
  .obj [("jsonrpc", jrpc), ("method", method), ("params", params), ("id", id)]

/-- `tools/call` params: `\x7bname, arguments\x7d`. -/
def callParams (name : String) (args : Js) : Js :=
  .obj [("name", .str name), ("arguments", args)]

/-- Extract a top-level field of a response body (when it is an object). -/
def bodyField (r : HttpResponse) (k : String) : Option Js :=
  match r.body with
  | .obj fs => fs.lookup k
  | _ => none

/-- The `id` field of a response body. -/
def responseId (r : HttpResponse) : Option Js := bodyField r "id"

/-- Array indexing `a[i]`, `undefined` out of range or on non-arrays. -/
def jsIndex : Js → Nat → Js
  | .arr xs, i => (xs.get? i).getD .undef
  | _, _ => (.undef)

/-- A stub upstream whose `response` array is empty (`results: 0`). -/
def emptyUpstream : Upstream := fun _ _ => .ok (.obj [("results", .num 0), ("response", .arr [])])

/-- Length of a JS array value. -/
def jsLength : Js → Nat
  | .arr xs => xs.length
  | _ => 0

/-- An upstream data object whose `response` field is the given array. -/
def mkResp (xs : List Js) : Js := .obj [("response", .arr xs)]

/-- The `name` fields of a descriptor array. -/
def toolNames : Js → List Js
  | .arr xs => xs.map (fun t => t.optGet "name")
  | _ => []

/-- The `description` fields of a descriptor array. -/
def toolDescriptions : Js → List Js
  | .arr xs => xs.map (fun t => t.optGet "description")
  | _ => []

/-- A tool payload whose first serialized field is a `message` string. -/
def messagePayload (p : Js) : Prop :=
  ∃ m rest, p = .obj (("message", .str m) :: rest)

/-- A tool result of the canonical shape: the `contentResult` wrapper
around a payload that carries a `message` string. -/
def contentShape (r : Js) : Prop :=
  ∃ p, r = contentResult p ∧ messagePayload p

/-- Request body with no `jsonrpc` field at all, method `tools/call`,
known tool, valid arguments, id 7. -/
def c3Body : Js :=
  .obj [("method", .str "tools/call"),
        ("params", callParams "search_teams" (.obj [("name", .str "Arsenal")])),
        ("id", .num 7)]

@[simp] theorem ok_bind {α β : Type} (a : α) (f : α → Except String β) :
    (Except.ok a >>= f : Except String β) = f a := rfl

@[simp] theorem error_bind {α β : Type} (e : String) (f : α → Except String β) :
    (Except.error e >>= f : Except String β) = .error e := rfl

@[simp] theorem get_obj (fs : List (String × Js)) (k : String) :
    Js.get (.obj fs) k = .ok ((fs.lookup k).getD .undef) := rfl

@[simp] theorem asArray_arr (xs : List Js) : Js.asArray (.arr xs) = .ok xs := rfl

/-- C2 counterexample: in the SDK variant, a `tools/call` with the unknown
tool name `nonexistent` does not produce a `-32601 Method not found` error
envelope; the handler's catch converts the thrown `Unknown tool` error into
a success-shaped `content` result (served with `res.json`, i.e. HTTP 200). -/
theorem c2_unknown_tool_success_shape :
    V2.callToolHandler "nonexistent" (.obj []) (fun _ _ => .ok .null) =
      .obj [("content", .arr [.obj [("type", .str "text"),
        ("text", .str "Error: Unknown tool: nonexistent")]])] := rfl

/-- C3 counterexample: a POST body with the `jsonrpc` field absent is not
rejected with a structural error; the dispatcher dispatches on `method`,
the `search_teams` handler runs (reaching the stub upstream) and a 200
success envelope with a `result` field and the request's id is returned. -/
theorem c3_no_jsonrpc_validation :
    (V1.mcpHandler "POST" c3Body emptyUpstream).status = 200 ∧
    responseId (V1.mcpHandler "POST" c3Body emptyUpstream) = some (.num 7) ∧
    bodyField (V1.mcpHandler "POST" c3Body emptyUpstream) "error" = none ∧
    (bodyField (V1.mcpHandler "POST" c3Body emptyUpstream) "result").isSome = true :=
  ⟨rfl, rfl, rfl, rfl⟩

/-- C4 counterexample: the per-entry mappings never substitute `'N/A'`.
An upstream fixture entry without a `fixture` object makes the V1 mapping
throw a TypeError (the mapping is not total), and a team entry whose
`team` object lacks `country` is mapped to `undefined` (dropped by
`JSON.stringify`), not to the string `'N/A'`. -/
theorem c4_no_na_fallback :
    V1.mapFixture (.obj []) =
      .error "TypeError: Cannot read properties of undefined (reading id)" ∧
    V1.mapTeamItem (.obj [("team", .obj [])]) =
      .ok (.obj [("id", .undef), ("name", .undef), ("country", .undef)]) :=
  ⟨rfl, rfl⟩

/-- C5 counterexample: in the SDK variant, `getUpcomingFixtures` with an
absent `league` argument builds an empty query parameter list — no default
league `"39"` is applied in that variant. -/
theorem c5_sdk_no_league_default :
    V2.fixturesParams (.obj []) = .ok [] := rfl

/-- C8 counterexample: in the part_000 variant the descriptor set returned
by `GET /mcp` is not the set returned by `POST tools/list`: the first
descriptor has the same name in both, but carries an `inputSchema` on GET
and none on POST. -/
theorem c8_get_post_schemas_differ :
    (jsIndex V3.getToolsJson 0).optGet "name" = (jsIndex V3.postListToolsJson 0).optGet "name" ∧
    Js.isUndef ((jsIndex V3.getToolsJson 0).optGet "inputSchema") = false ∧
    Js.isUndef ((jsIndex V3.postListToolsJson 0).optGet "inputSchema") = true :=
  ⟨rfl, rfl, rfl⟩

@[simp] theorem pure_ok {α : Type} (a : α) : (pure a : Except String α) = .ok a := rfl

theorem bind_ok_elim {α β : Type} (a : Except String α) (f : α → Except String β) (b : β)
    (h : (a >>= f) = .ok b) : ∃ x, a = .ok x ∧ f x = .ok b := by
  cases a with
  | error e => rw [error_bind] at h; cases h
  | ok x => exact ⟨x, rfl, h⟩

theorem v1_mcpHandler_ok (m : String) (b : Js) (up : Upstream) (r : HttpResponse)
    (h : V1.tryHandler m b up = .ok r) : V1.mcpHandler m b up = r := by
  unfold V1.mcpHandler
  rw [h]

theorem v1_mcpHandler_error (m : String) (b : Js) (up : Upstream) (e : String)
    (h : V1.tryHandler m b up = .error e) :
    V1.mcpHandler m b up =
      ⟨500, .obj [("jsonrpc", .str "2.0"), ("id", b.optGet "id"),
                  ("error", .obj [("code", .num (-32603)), ("message", .str e)])]⟩ := by
  unfold V1.mcpHandler
  rw [h]

theorem v3_postHandler_ok (b : Js) (up : Upstream) (r : HttpResponse)
    (h : V3.tryPostHandler b up = .ok r) : V3.postHandler b up = r := by
  unfold V3.postHandler
  rw [h]

/-- Unfolding of the V1 POST dispatch on a body with the four standard
fields: the destructuring succeeds and the handler is the method/tool
decision tree. -/
theorem v1_tryHandler_post_unfold (jrpc method params id : Js) (up : Upstream) :
    V1.tryHandler "POST" (mkPostBody jrpc method params id) up =
      (if method.eqStr "tools/list" then
        pure ⟨200, V1.envelope id (.obj [("tools", V1.toolsJson)])⟩
      else if method.eqStr "tools/call" then
        (params.get "name" >>= fun name =>
         params.get "arguments" >>= fun args =>
         if name.eqStr "search_teams" then
           (args.get "name" >>= fun nm =>
            up "/teams" [("search", nm)] >>= fun data =>
            V1.searchTeamsPayload nm data >>= fun payload =>
            pure ⟨200, V1.envelope id (contentResult payload)⟩)
         else if name.eqStr "get_upcoming_fixtures" then
           (args.get "league" >>= fun lg =>
            up "/fixtures" (V1.fixturesQuery lg) >>= fun data =>
            V1.fixturesPayload data >>= fun payload =>
            pure ⟨200, V1.envelope id (contentResult payload)⟩)
         else pure (V1.notFoundResponse id))
      else pure (V1.notFoundResponse id)) := rfl

/-- Unfolding of the V3 POST dispatch on a body with `method` and
`params` fields. -/
theorem v3_tryPostHandler_unfold (method params : Js) (up : Upstream) :
    V3.tryPostHandler (.obj [("method", method), ("params", params)]) up =
      (if method.eqStr "tools/list" then
        pure ⟨200, .obj [("tools", V3.postListToolsJson)]⟩
      else if method.eqStr "tools/call" then
        (params.get "name" >>= fun name =>
         params.get "arguments" >>= fun args =>
         if name.eqStr "search_teams" then
           (args.get "name" >>= fun nm =>
            up "/teams" [("search", nm)] >>= fun data =>
            V3.searchTeamsPayload nm data >>= fun payload =>
            pure ⟨200, contentResult payload⟩)
         else if name.eqStr "get_upcoming_fixtures" then
           (args.get "league" >>= fun lg =>
            up "/fixtures" (V3.fixturesQuery lg) >>= fun data =>
            V3.fixturesPayload data >>= fun payload =>
            pure ⟨200, contentResult payload⟩)
         else pure ⟨400, .obj [("error", .str "Unknown method or tool")]⟩)
      else pure ⟨400, .obj [("error", .str "Unknown method or tool")]⟩) := rfl

theorem mapE_length (f : Js → Except String Js) (l : List Js) (ts : List Js)
    (h : mapE f l = .ok ts) : ts.length = l.length := by
  induction l generalizing ts with
  | nil =>
      simp only [mapE] at h
      cases h
      rfl
  | cons a l ih =>
      simp only [mapE] at h
      cases hf : f a with
      | error e => rw [hf] at h; simp at h
      | ok b =>
          rw [hf, ok_bind] at h
          cases hm : mapE f l with
          | error e => rw [hm] at h; simp at h
          | ok bs =>
              rw [hm, ok_bind, pure_ok] at h
              cases h
              simp [ih bs hm]

/-- Unfolding of the V1 `search_teams` branch for a well-formed
`tools/call` body. -/
theorem v1_tryHandler_search_unfold (jrpc args id : Js) (up : Upstream) :
    V1.tryHandler "POST" (mkPostBody jrpc (.str "tools/call")
        (callParams "search_teams" args) id) up =
      (args.get "name" >>= fun nm =>
       up "/teams" [("search", nm)] >>= fun data =>
       V1.searchTeamsPayload nm data >>= fun payload =>
       pure ⟨200, V1.envelope id (contentResult payload)⟩) := rfl

/-- Unfolding of the V1 `get_upcoming_fixtures` branch for a well-formed
`tools/call` body. -/
theorem v1_tryHandler_fixtures_unfold (jrpc args id : Js) (up : Upstream) :
    V1.tryHandler "POST" (mkPostBody jrpc (.str "tools/call")
        (callParams "get_upcoming_fixtures" args) id) up =
      (args.get "league" >>= fun lg =>
       up "/fixtures" (V1.fixturesQuery lg) >>= fun data =>
       V1.fixturesPayload data >>= fun payload =>
       pure ⟨200, V1.envelope id (contentResult payload)⟩) := rfl

/-- C1: for every `tools/call` request to the V1 dispatcher with a known
tool name, the response envelope carries the request's correlation id:
the `id` of the 200 success envelope equals the request's `id`, and when
the tool handler throws, the 500 error envelope's `id` (built from
`req.body?.id`) also equals the request's `id`. -/
theorem c1_call_response_echoes_id (jrpc args id : Js) (name : String) (up : Upstream)
    (h : name = "search_teams" ∨ name = "get_upcoming_fixtures") :
    responseId (V1.mcpHandler "POST"
      (mkPostBody jrpc (.str "tools/call") (callParams name args) id) up) = some id := by
  rcases h with rfl | rfl
  · cases ht : V1.tryHandler "POST"
        (mkPostBody jrpc (.str "tools/call") (callParams "search_teams" args) id) up with
    | error e =>
        rw [v1_mcpHandler_error _ _ _ _ ht]
        rfl
    | ok r =>
        rw [v1_mcpHandler_ok _ _ _ _ ht]
        rw [v1_tryHandler_search_unfold] at ht
        obtain ⟨nm, _, ht⟩ := bind_ok_elim _ _ _ ht
        obtain ⟨data, _, ht⟩ := bind_ok_elim _ _ _ ht
        obtain ⟨payload, _, ht⟩ := bind_ok_elim _ _ _ ht
        rw [pure_ok] at ht
        cases ht
        rfl
  · cases ht : V1.tryHandler "POST"
        (mkPostBody jrpc (.str "tools/call") (callParams "get_upcoming_fixtures" args) id) up with
    | error e =>
        rw [v1_mcpHandler_error _ _ _ _ ht]
        rfl
    | ok r =>
        rw [v1_mcpHandler_ok _ _ _ _ ht]
        rw [v1_tryHandler_fixtures_unfold] at ht
        obtain ⟨lg, _, ht⟩ := bind_ok_elim _ _ _ ht
        obtain ⟨data, _, ht⟩ := bind_ok_elim _ _ _ ht
        obtain ⟨payload, _, ht⟩ := bind_ok_elim _ _ _ ht
        rw [pure_ok] at ht
        cases ht
        rfl

/-- C1 witness: the id-echo theorem at a concrete request (id 1,
`search_teams` with name "Arsenal", empty upstream). -/
theorem c1_call_response_echoes_id_witness :
    (("search_teams" : String) = "search_teams" ∨
     ("search_teams" : String) = "get_upcoming_fixtures") ∧
    responseId (V1.mcpHandler "POST"
      (mkPostBody .null (.str "tools/call")
        (callParams "search_teams" (.obj [("name", .str "Arsenal")])) (.num 1))
      emptyUpstream) = some (.num 1) :=
  ⟨Or.inl rfl,
   c1_call_response_echoes_id .null (.obj [("name", .str "Arsenal")]) (.num 1)
     "search_teams" emptyUpstream (Or.inl rfl)⟩

/-- C2 amended: in the plain-Express variants an unknown method, or a
`tools/call` with an unknown tool name, deterministically produces the
400 not-found response — with code `-32601 Method not found` and the
request id in V1, and with `\x7berror: 'Unknown method or tool'\x7d` (no
code, no id) in the part_000 variant; the SDK variant instead returns a
success-shaped content result (see the counterexample). -/
theorem c2_plain_variants_not_found (jrpc params id method : Js) (up : Upstream)
    (h : (method.eqStr "tools/list" = false ∧ method.eqStr "tools/call" = false) ∨
         (method = .str "tools/call" ∧ ∃ ps, params = .obj ps ∧
           ((ps.lookup "name").getD .undef).eqStr "search_teams" = false ∧
           ((ps.lookup "name").getD .undef).eqStr "get_upcoming_fixtures" = false)) :
    V1.mcpHandler "POST" (mkPostBody jrpc method params id) up = V1.notFoundResponse id ∧
    V3.postHandler (.obj [("method", method), ("params", params)]) up =
      ⟨400, .obj [("error", .str "Unknown method or tool")]⟩ := by
  rcases h with ⟨h1, h2⟩ | ⟨rfl, ps, rfl, hn1, hn2⟩
  · constructor
    · apply v1_mcpHandler_ok
      rw [v1_tryHandler_post_unfold, h1, h2]
      simp
    · apply v3_postHandler_ok
      rw [v3_tryPostHandler_unfold, h1, h2]
      simp
  · constructor
    · apply v1_mcpHandler_ok
      rw [v1_tryHandler_post_unfold]
      simp only [show Js.eqStr (.str "tools/call") "tools/list" = false from rfl,
                 show Js.eqStr (.str "tools/call") "tools/call" = true from rfl,
                 get_obj, ok_bind]
      simp only [Bool.false_eq_true, if_false, if_true]
      rw [hn1, hn2]
      simp
    · apply v3_postHandler_ok
      rw [v3_tryPostHandler_unfold]
      simp only [show Js.eqStr (.str "tools/call") "tools/list" = false from rfl,
                 show Js.eqStr (.str "tools/call") "tools/call" = true from rfl,
                 get_obj, ok_bind]
      simp only [Bool.false_eq_true, if_false, if_true]
      rw [hn1, hn2]
      simp

/-- C2 amended witness: the not-found behavior at the concrete unknown
method "foo". -/
theorem c2_plain_variants_not_found_witness :
    (Js.eqStr (.str "foo") "tools/list" = false ∧
     Js.eqStr (.str "foo") "tools/call" = false) ∧
    (V1.mcpHandler "POST" (mkPostBody .null (.str "foo") .null (.num 2)) emptyUpstream =
       V1.notFoundResponse (.num 2) ∧
     V3.postHandler (.obj [("method", .str "foo"), ("params", .null)]) emptyUpstream =
       ⟨400, .obj [("error", .str "Unknown method or tool")]⟩) :=
  ⟨⟨rfl, rfl⟩,
   c2_plain_variants_not_found .null .null (.num 2) (.str "foo") emptyUpstream
     (Or.inl ⟨rfl, rfl⟩)⟩

/-- C3 amended: the V1 dispatcher never inspects the `jsonrpc` field;
the whole response is identical for any two values of that field (absent,
wrong version, or "2.0"), for every method, params, id and upstream —
there is no structural validation before dispatch. -/
theorem c3_jsonrpc_never_inspected (j1 j2 method params id : Js) (up : Upstream) :
    V1.mcpHandler "POST" (mkPostBody j1 method params id) up =
      V1.mcpHandler "POST" (mkPostBody j2 method params id) up := rfl

theorem stringifyFields_append_undef (fs : List (String × Js)) (k : String) :
    stringifyFields (fs ++ [(k, .undef)]) = stringifyFields fs := by
  induction fs with
  | nil => rfl
  | cons p fs ih =>
      obtain ⟨q, v⟩ := p
      simp only [List.cons_append, stringifyFields, List.append_eq]
      rw [ih]

/-- C4 amended: the SDK variant's fixture mapping is the only place a
missing nested field is tolerated: `fixture.fixture.venue?.name` maps an
absent `venue` to `undefined` (so `JSON.stringify` omits the field — last
conjunct), not to the string `'N/A'`; every other absent nested object
makes the per-entry mapping throw (see the counterexample), and no `'N/A'`
fallback exists anywhere. -/
theorem c4_venue_optional_chain_undef (fid fdate st lg hn an : Js) :
    V2.mapFixture (.obj [
        ("fixture", .obj [("id", fid), ("date", fdate), ("status", .obj [("long", st)])]),
        ("league", .obj [("name", lg)]),
        ("teams", .obj [("home", .obj [("name", hn)]), ("away", .obj [("name", an)])])]) =
      .ok (.obj [("id", fid), ("date", fdate), ("status", st), ("league", lg),
                 ("teams", .str (hn.display ++ " vs " ++ an.display)), ("venue", .undef)]) ∧
    stringify (.obj [("id", fid), ("date", fdate), ("status", st), ("league", lg),
                 ("teams", .str (hn.display ++ " vs " ++ an.display)), ("venue", .undef)]) =
      stringify (.obj [("id", fid), ("date", fdate), ("status", st), ("league", lg),
                 ("teams", .str (hn.display ++ " vs " ++ an.display))]) := by
  constructor
  · rfl
  · show "\x7b" ++ stringifyFields _ ++ "\x7d" = "\x7b" ++ stringifyFields _ ++ "\x7d"
    rw [show ([("id", fid), ("date", fdate), ("status", st), ("league", lg),
         ("teams", Js.str (hn.display ++ " vs " ++ an.display)), ("venue", Js.undef)]) =
        ([("id", fid), ("date", fdate), ("status", st), ("league", lg),
         ("teams", Js.str (hn.display ++ " vs " ++ an.display))] ++ [("venue", Js.undef)]) from rfl,
        stringifyFields_append_undef]

/-- C5 amended: the plain-Express variants default the fixtures query's
`league` to `"39"` exactly when `args.league` is falsy (absent, empty
string, 0, null), passing any truthy value through unchanged; the SDK
variant applies no default at all — a falsy `league` is simply omitted
from the query. -/
theorem c5_league_default_by_variant (lg : Js) (ps : List (String × Js)) :
    ((V1.fixturesQuery lg).lookup "league" = some (if lg.truthy then lg else .str "39")) ∧
    ((V3.fixturesQuery lg).lookup "league" = some (if lg.truthy then lg else .str "39")) ∧
    (∃ q, V2.fixturesParams (.obj ps) = .ok q ∧
       q.lookup "league" = (if ((ps.lookup "league").getD .undef).truthy
                            then some ((ps.lookup "league").getD .undef) else none)) := by
  refine ⟨rfl, rfl, ?_⟩
  refine ⟨(if ((ps.lookup "league").getD .undef).truthy
             then [("league", (ps.lookup "league").getD .undef)] else []) ++
          (if ((ps.lookup "date").getD .undef).truthy
             then [("date", (ps.lookup "date").getD .undef)] else []) ++
          (if ((ps.lookup "timezone").getD .undef).truthy
             then [("timezone", (ps.lookup "timezone").getD .undef)] else []), rfl, ?_⟩
  cases h1 : ((ps.lookup "league").getD .undef).truthy with
  | true =>
      simp [h1]
  | false =>
      cases h2 : ((ps.lookup "date").getD .undef).truthy <;>
        cases h3 : ((ps.lookup "timezone").getD .undef).truthy <;>
          simp [h1, h2, h3, List.lookup]

/-- C6: the per-entry summaries depend only on the first N entries of the
upstream `response` array — search teams with N = 5 in the plain variants
and N = 10 in the SDK variant, fixtures with N = 5 (V1) and odds with
N = 5 (SDK) — entries past the first N never influence the summary, and a
successful summary's `teams` collection never exceeds N entries. -/
theorem c6_top_n_slice (nm : Js) (xs : List Js) :
    (V1.searchTeamsPayload nm (mkResp xs) = V1.searchTeamsPayload nm (mkResp (xs.take 5))) ∧
    (V2.searchTeamsPayload nm (mkResp xs) = V2.searchTeamsPayload nm (mkResp (xs.take 10))) ∧
    (V3.searchTeamsPayload nm (mkResp xs) = V3.searchTeamsPayload nm (mkResp (xs.take 5))) ∧
    (∀ p, V1.searchTeamsPayload nm (mkResp xs) = .ok p → jsLength (p.optGet "teams") ≤ 5) ∧
    (∀ p, V2.searchTeamsPayload nm (mkResp xs) = .ok p → jsLength (p.optGet "teams") ≤ 10) ∧
    (V1.fixturesPayload (mkResp xs) = V1.fixturesPayload (mkResp (xs.take 5))) ∧
    (V2.oddsPayload (mkResp xs) = V2.oddsPayload (mkResp (xs.take 5))) := by
  have u1 : ∀ ys, V1.searchTeamsPayload nm (mkResp ys) =
      (mapE V1.mapTeamItem (ys.take 5) >>= fun teams =>
       pure (.obj [("message", .str ("Teams found matching \"" ++ nm.display ++ "\"")),
                   ("teams", .arr teams)])) := fun ys => rfl
  have u2 : ∀ ys, V2.searchTeamsPayload nm (mkResp ys) =
      (mapE V2.mapTeamItem (ys.take 10) >>= fun teams =>
       pure (.obj [("message", .str ("Teams found matching \"" ++ nm.display ++ "\"")),
                   ("teams", .arr teams)])) := fun ys => rfl
  have u3 : ∀ ys, V3.searchTeamsPayload nm (mkResp ys) =
      (mapE V3.mapTeamItem (ys.take 5) >>= fun teams =>
       pure (.obj [("message", .str ("Teams found matching \"" ++ nm.display ++ "\"")),
                   ("teams", .arr teams)])) := fun ys => rfl
  have u4 : ∀ ys, V1.fixturesPayload (mkResp ys) =
      (mapE V1.mapFixture (ys.take 5) >>= fun fixtures =>
       pure (.obj [("message", .str "Found undefined upcoming fixtures"),
                   ("fixtures", .arr fixtures)])) := fun ys => rfl
  have u5 : ∀ ys, V2.oddsPayload (mkResp ys) =
      (mapE V2.mapOdd (ys.take 5) >>= fun odds =>
       pure (.obj [("message", .str "Betting odds found"), ("odds", .arr odds)])) :=
    fun ys => rfl
  refine ⟨?_, ?_, ?_, ?_, ?_, ?_, ?_⟩
  · rw [u1, u1, List.take_take, Nat.min_self]
  · rw [u2, u2, List.take_take, Nat.min_self]
  · rw [u3, u3, List.take_take, Nat.min_self]
  · intro p hp
    rw [u1] at hp
    obtain ⟨ts, hts, hp⟩ := bind_ok_elim _ _ _ hp
    rw [pure_ok] at hp
    cases hp
    show ts.length ≤ 5
    rw [mapE_length _ _ _ hts, List.length_take]
    exact Nat.min_le_left _ _
  · intro p hp
    rw [u2] at hp
    obtain ⟨ts, hts, hp⟩ := bind_ok_elim _ _ _ hp
    rw [pure_ok] at hp
    cases hp
    show ts.length ≤ 10
    rw [mapE_length _ _ _ hts, List.length_take]
    exact Nat.min_le_left _ _
  · rw [u4, u4, List.take_take, Nat.min_self]
  · rw [u5, u5, List.take_take, Nat.min_self]

/-- C6 witness: the bound applied to a concrete six-entry response. -/
theorem c6_top_n_slice_witness :
    V1.searchTeamsPayload (.str "x")
      (mkResp (List.replicate 6
        (.obj [("team", .obj [("id", .num 1), ("name", .str "A"), ("country", .str "B")])]))) =
      .ok (.obj [("message", .str "Teams found matching \"x\""),
                 ("teams", .arr (List.replicate 5
                   (.obj [("id", .num 1), ("name", .str "A"), ("country", .str "B")])))]) ∧
    jsLength ((Js.obj [("message", .str "Teams found matching \"x\""),
                 ("teams", .arr (List.replicate 5
                   (.obj [("id", .num 1), ("name", .str "A"), ("country", .str "B")])))]).optGet
      "teams") ≤ 5 :=
  ⟨rfl,
   (c6_top_n_slice (.str "x") (List.replicate 6
       (.obj [("team", .obj [("id", .num 1), ("name", .str "A"), ("country", .str "B")])]))).2.2.2.1
     (.obj [("message", .str "Teams found matching \"x\""),
            ("teams", .arr (List.replicate 5
              (.obj [("id", .num 1), ("name", .str "A"), ("country", .str "B")])))]) rfl⟩

/-- C7: when the upstream `response` array is empty, every
summary-producing tool returns a success-shaped result with an empty
collection — a 200 envelope with `teams: []` in the plain variants, and
`.ok` content results with empty `fixtures` / `odds` in the SDK variant —
never an error envelope and never a thrown error. -/
theorem c7_empty_response_empty_collection (nmv id jrpc : Js) :
    V1.mcpHandler "POST" (mkPostBody jrpc (.str "tools/call")
        (callParams "search_teams" (.obj [("name", nmv)])) id) emptyUpstream =
      ⟨200, V1.envelope id (contentResult (.obj
        [("message", .str ("Teams found matching \"" ++ nmv.display ++ "\"")),
         ("teams", .arr [])]))⟩ ∧
    V3.postHandler (.obj [("method", .str "tools/call"),
        ("params", callParams "search_teams" (.obj [("name", nmv)]))]) emptyUpstream =
      ⟨200, contentResult (.obj
        [("message", .str ("Teams found matching \"" ++ nmv.display ++ "\"")),
         ("teams", .arr [])])⟩ ∧
    V2.getUpcomingFixtures (.obj []) emptyUpstream =
      .ok (contentResult (.obj [("message", .str "Found 0 upcoming fixtures"),
                                ("fixtures", .arr [])])) ∧
    V2.getOdds (.obj []) emptyUpstream =
      .ok (contentResult (.obj [("message", .str "Betting odds found"),
                                ("odds", .arr [])])) :=
  ⟨rfl, rfl, rfl, rfl⟩

/-- C8 amended: in the part_000 variant the `tools/list` response is a
fixed point — a static constant, independent of params, id and upstream,
hence identical across repeated calls — and the GET /mcp descriptor set
agrees with the POST `tools/list` set on tool names and descriptions;
the input schemas however differ: GET carries an `inputSchema` per tool,
POST `tools/list` omits it (see the counterexample). -/
theorem c8_tools_list_fixed_point (params id : Js) (up : Upstream) :
    V3.postHandler (.obj [("method", .str "tools/list"), ("params", params), ("id", id)]) up =
      ⟨200, .obj [("tools", V3.postListToolsJson)]⟩ ∧
    V3.getMcpResponse = ⟨200, .obj [("tools", V3.getToolsJson)]⟩ ∧
    toolNames V3.getToolsJson = toolNames V3.postListToolsJson ∧
    toolDescriptions V3.getToolsJson = toolDescriptions V3.postListToolsJson :=
  ⟨rfl, rfl, rfl, rfl⟩

/-- C9: every tool's successful result has the canonical content shape:
`contentResult p` carries exactly one content item, of type "text", whose
text serializes the payload `p` (first three conjuncts), and every tool
payload in every variant starts with a `message` string field — stated for
the two V1 payloads, the four complete SDK tools, and the two V3 payloads. -/
theorem c9_single_text_content :
    (∀ p, jsLength ((contentResult p).optGet "content") = 1) ∧
    (∀ p, (jsIndex ((contentResult p).optGet "content") 0).optGet "type" = .str "text") ∧
    (∀ p, (jsIndex ((contentResult p).optGet "content") 0).optGet "text" = .str (stringify p)) ∧
    (∀ nm data p, V1.searchTeamsPayload nm data = .ok p → messagePayload p) ∧
    (∀ data p, V1.fixturesPayload data = .ok p → messagePayload p) ∧
    (∀ args up r, V2.getUpcomingFixtures args up = .ok r → contentShape r) ∧
    (∀ args up r, V2.getTeamForm args up = .ok r → contentShape r) ∧
    (∀ args up r, V2.getOdds args up = .ok r → contentShape r) ∧
    (∀ args up r, V2.searchTeams args up = .ok r → contentShape r) ∧
    (∀ nm data p, V3.searchTeamsPayload nm data = .ok p → messagePayload p) ∧
    (∀ data p, V3.fixturesPayload data = .ok p → messagePayload p) := by
  have hv2fix : ∀ data p, V2.fixturesPayload data = .ok p → messagePayload p := by
    intro data p hp
    rw [show V2.fixturesPayload data =
        (data.get "results" >>= fun results =>
         data.get "response" >>= fun x =>
         x.asArray >>= fun resp =>
         mapE V2.mapFixture (resp.take 10) >>= fun fixtures =>
         pure (.obj [("message", .str ("Found " ++ results.display ++ " upcoming fixtures")),
                     ("fixtures", .arr fixtures)])) from rfl] at hp
    obtain ⟨results, _, hp⟩ := bind_ok_elim _ _ _ hp
    obtain ⟨x, _, hp⟩ := bind_ok_elim _ _ _ hp
    obtain ⟨resp, _, hp⟩ := bind_ok_elim _ _ _ hp
    obtain ⟨fixtures, _, hp⟩ := bind_ok_elim _ _ _ hp
    rw [pure_ok] at hp
    cases hp
    exact ⟨_, _, rfl⟩
  have hv2form : ∀ data p, V2.teamFormPayload data = .ok p → messagePayload p := by
    intro data p hp
    rw [show V2.teamFormPayload data =
        (data.get "response" >>= fun resp =>
         pure (.obj [("message", .str "Team statistics for analysis"),
                     ("statistics", resp)])) from rfl] at hp
    obtain ⟨resp, _, hp⟩ := bind_ok_elim _ _ _ hp
    rw [pure_ok] at hp
    cases hp
    exact ⟨_, _, rfl⟩
  have hv2odds : ∀ data p, V2.oddsPayload data = .ok p → messagePayload p := by
    intro data p hp
    rw [show V2.oddsPayload data =
        (data.get "response" >>= fun x =>
         x.asArray >>= fun resp =>
         mapE V2.mapOdd (resp.take 5) >>= fun odds =>
         pure (.obj [("message", .str "Betting odds found"), ("odds", .arr odds)])) from rfl] at hp
    obtain ⟨x, _, hp⟩ := bind_ok_elim _ _ _ hp
    obtain ⟨resp, _, hp⟩ := bind_ok_elim _ _ _ hp
    obtain ⟨odds, _, hp⟩ := bind_ok_elim _ _ _ hp
    rw [pure_ok] at hp
    cases hp
    exact ⟨_, _, rfl⟩
  have hv2search : ∀ nm data p, V2.searchTeamsPayload nm data = .ok p → messagePayload p := by
    intro nm data p hp
    rw [show V2.searchTeamsPayload nm data =
        (data.get "response" >>= fun x =>
         x.asArray >>= fun resp =>
         mapE V2.mapTeamItem (resp.take 10) >>= fun teams =>
         pure (.obj [("message", .str ("Teams found matching \"" ++ nm.display ++ "\"")),
                     ("teams", .arr teams)])) from rfl] at hp
    obtain ⟨x, _, hp⟩ := bind_ok_elim _ _ _ hp
    obtain ⟨resp, _, hp⟩ := bind_ok_elim _ _ _ hp
    obtain ⟨teams, _, hp⟩ := bind_ok_elim _ _ _ hp
    rw [pure_ok] at hp
    cases hp
    exact ⟨_, _, rfl⟩
  refine ⟨fun p => rfl, fun p => rfl, fun p => rfl, ?_, ?_, ?_, ?_, ?_, ?_, ?_, ?_⟩
  · intro nm data p hp
    rw [show V1.searchTeamsPayload nm data =
        (data.get "response" >>= fun x =>
         x.asArray >>= fun resp =>
         mapE V1.mapTeamItem (resp.take 5) >>= fun teams =>
         pure (.obj [("message", .str ("Teams found matching \"" ++ nm.display ++ "\"")),
                     ("teams", .arr teams)])) from rfl] at hp
    obtain ⟨x, _, hp⟩ := bind_ok_elim _ _ _ hp
    obtain ⟨resp, _, hp⟩ := bind_ok_elim _ _ _ hp
    obtain ⟨teams, _, hp⟩ := bind_ok_elim _ _ _ hp
    rw [pure_ok] at hp
    cases hp
    exact ⟨_, _, rfl⟩
  · intro data p hp
    rw [show V1.fixturesPayload data =
        (data.get "results" >>= fun results =>
         data.get "response" >>= fun x =>
         x.asArray >>= fun resp =>
         mapE V1.mapFixture (resp.take 5) >>= fun fixtures =>
         pure (.obj [("message", .str ("Found " ++ results.display ++ " upcoming fixtures")),
                     ("fixtures", .arr fixtures)])) from rfl] at hp
    obtain ⟨results, _, hp⟩ := bind_ok_elim _ _ _ hp
    obtain ⟨x, _, hp⟩ := bind_ok_elim _ _ _ hp
    obtain ⟨resp, _, hp⟩ := bind_ok_elim _ _ _ hp
    obtain ⟨fixtures, _, hp⟩ := bind_ok_elim _ _ _ hp
    rw [pure_ok] at hp
    cases hp
    exact ⟨_, _, rfl⟩
  · intro args up r hr
    rw [show V2.getUpcomingFixtures args up =
        (V2.fixturesParams args >>= fun params =>
         V2.makeApiRequest up "/fixtures" params >>= fun data =>
         V2.fixturesPayload data >>= fun payload =>
         pure (contentResult payload)) from rfl] at hr
    obtain ⟨params, _, hr⟩ := bind_ok_elim _ _ _ hr
    obtain ⟨data, _, hr⟩ := bind_ok_elim _ _ _ hr
    obtain ⟨payload, hpay, hr⟩ := bind_ok_elim _ _ _ hr
    rw [pure_ok] at hr
    cases hr
    exact ⟨payload, rfl, hv2fix data payload hpay⟩
  · intro args up r hr
    rw [show V2.getTeamForm args up =
        (args.get "team" >>= fun team =>
         args.get "league" >>= fun league =>
         args.get "season" >>= fun season =>
         V2.makeApiRequest up "/teams/statistics"
           ([("team", team), ("league", league)] ++
            (if season.truthy then [("season", season)] else [])) >>= fun data =>
         V2.teamFormPayload data >>= fun payload =>
         pure (contentResult payload)) from rfl] at hr
    obtain ⟨team, _, hr⟩ := bind_ok_elim _ _ _ hr
    obtain ⟨league, _, hr⟩ := bind_ok_elim _ _ _ hr
    obtain ⟨season, _, hr⟩ := bind_ok_elim _ _ _ hr
    obtain ⟨data, _, hr⟩ := bind_ok_elim _ _ _ hr
    obtain ⟨payload, hpay, hr⟩ := bind_ok_elim _ _ _ hr
    rw [pure_ok] at hr
    cases hr
    exact ⟨payload, rfl, hv2form data payload hpay⟩
  · intro args up r hr
    rw [show V2.getOdds args up =
        (args.get "fixture" >>= fun fx =>
         args.get "league" >>= fun lg =>
         args.get "bookmaker" >>= fun bm =>
         V2.makeApiRequest up "/odds"
           ((if fx.truthy then [("fixture", fx)] else []) ++
            (if lg.truthy then [("league", lg)] else []) ++
            (if bm.truthy then [("bookmaker", bm)] else [])) >>= fun data =>
         V2.oddsPayload data >>= fun payload =>
         pure (contentResult payload)) from rfl] at hr
    obtain ⟨fx, _, hr⟩ := bind_ok_elim _ _ _ hr
    obtain ⟨lg, _, hr⟩ := bind_ok_elim _ _ _ hr
    obtain ⟨bm, _, hr⟩ := bind_ok_elim _ _ _ hr
    obtain ⟨data, _, hr⟩ := bind_ok_elim _ _ _ hr
    obtain ⟨payload, hpay, hr⟩ := bind_ok_elim _ _ _ hr
    rw [pure_ok] at hr
    cases hr
    exact ⟨payload, rfl, hv2odds data payload hpay⟩
  · intro args up r hr
    rw [show V2.searchTeams args up =
        (args.get "name" >>= fun nm =>
         V2.makeApiRequest up "/teams" [("search", nm)] >>= fun data =>
         V2.searchTeamsPayload nm data >>= fun payload =>
         pure (contentResult payload)) from rfl] at hr
    obtain ⟨nm, _, hr⟩ := bind_ok_elim _ _ _ hr
    obtain ⟨data, _, hr⟩ := bind_ok_elim _ _ _ hr
    obtain ⟨payload, hpay, hr⟩ := bind_ok_elim _ _ _ hr
    rw [pure_ok] at hr
    cases hr
    exact ⟨payload, rfl, hv2search nm data payload hpay⟩
  · intro nm data p hp
    rw [show V3.searchTeamsPayload nm data =
        (data.get "response" >>= fun x =>
         x.asArray >>= fun resp =>
         mapE V3.mapTeamItem (resp.take 5) >>= fun teams =>
         pure (.obj [("message", .str ("Teams found matching \"" ++ nm.display ++ "\"")),
                     ("teams", .arr teams)])) from rfl] at hp
    obtain ⟨x, _, hp⟩ := bind_ok_elim _ _ _ hp
    obtain ⟨resp, _, hp⟩ := bind_ok_elim _ _ _ hp
    obtain ⟨teams, _, hp⟩ := bind_ok_elim _ _ _ hp
    rw [pure_ok] at hp
    cases hp
    exact ⟨_, _, rfl⟩
  · intro data p hp
    rw [show V3.fixturesPayload data =
        (data.get "results" >>= fun results =>
         data.get "response" >>= fun x =>
         x.asArray >>= fun resp =>
         mapE V3.mapFixture (resp.take 5) >>= fun fixtures =>
         pure (.obj [("message", .str ("Found " ++ results.display ++ " upcoming fixtures")),
                     ("fixtures", .arr fixtures)])) from rfl] at hp
    obtain ⟨results, _, hp⟩ := bind_ok_elim _ _ _ hp
    obtain ⟨x, _, hp⟩ := bind_ok_elim _ _ _ hp
    obtain ⟨resp, _, hp⟩ := bind_ok_elim _ _ _ hp
    obtain ⟨fixtures, _, hp⟩ := bind_ok_elim _ _ _ hp
    rw [pure_ok] at hp
    cases hp
    exact ⟨_, _, rfl⟩

/-- C9 witness: the SDK `searchTeams` at a concrete call against the
empty upstream produces the canonical content shape. -/
theorem c9_single_text_content_witness :
    V2.searchTeams (.obj [("name", .str "x")]) emptyUpstream =
      .ok (contentResult (.obj [("message", .str "Teams found matching \"x\""),
                                ("teams", .arr [])])) ∧
    contentShape (contentResult (.obj [("message", .str "Teams found matching \"x\""),
                                       ("teams", .arr [])])) :=
  ⟨rfl, c9_single_text_content.2.2.2.2.2.2.2.2.1 (.obj [("name", .str "x")]) emptyUpstream
          (contentResult (.obj [("message", .str "Teams found matching \"x\""),
                                ("teams", .arr [])])) rfl⟩

/-- C10: the catch-all of the V1 dispatcher is total over request bodies:
whenever the try block throws, the handler returns exactly the 500
envelope built with `req.body?.id` — whose value is the body's `id` field
when the body is an object, and `undefined` (a field that `JSON.stringify`
drops, i.e. absent) for any other body, including an absent
(`undefined`/`null`) or non-object body; building it never throws. -/
theorem c10_catch_total (m : String) (body : Js) (up : Upstream) (e : String)
    (h : V1.tryHandler m body up = .error e) :
    V1.mcpHandler m body up =
      ⟨500, .obj [("jsonrpc", .str "2.0"), ("id", body.optGet "id"),
                  ("error", .obj [("code", .num (-32603)), ("message", .str e)])]⟩ ∧
    body.optGet "id" = (match body with
                        | .obj fs => (fs.lookup "id").getD .undef
                        | _ => .undef) := by
  refine ⟨v1_mcpHandler_error m body up e h, ?_⟩
  cases body <;> rfl

/-- C10 witness: a request with an absent body (`undefined`) throws in the
destructuring; the catch produces the 500 envelope with an `undefined`
(absent) id, without itself throwing. -/
theorem c10_catch_total_witness :
    V1.tryHandler "POST" .undef emptyUpstream =
      .error "TypeError: Cannot read properties of undefined (reading jsonrpc)" ∧
    (V1.mcpHandler "POST" .undef emptyUpstream =
      ⟨500, .obj [("jsonrpc", .str "2.0"), ("id", Js.optGet (.undef) "id"),
                  ("error", .obj [("code", .num (-32603)),
                    ("message", .str "TypeError: Cannot read properties of undefined (reading jsonrpc)")])]⟩ ∧
     Js.optGet (.undef) "id" = (.undef)) :=
  ⟨rfl, c10_catch_total "POST" .undef emptyUpstream
          "TypeError: Cannot read properties of undefined (reading jsonrpc)" rfl⟩
